import Mathlib

/-!
Verification of the IBM i MCP agent-infrastructure repository.

This file shallowly embeds the Python code of the repository
(`agents/builder.py`, `agents/config.py`, `agents/registry.py`,
`agents/utils/model_selector.py`, the langchain `ibmi_agents.py` helpers and
the workflow modules) as executable Lean definitions, and proves the frozen
claims about them.  Python dictionaries are modelled as association lists,
Python `or` on optional strings/dicts keeps the left value exactly when it is
truthy (non-None and non-empty), and Python exceptions are modelled with
`Except`.
-/

set_option autoImplicit false

namespace IbmiMcp

/-! ## Python-semantics helpers -/

/-- Association-list lookup: Python `dict[k]` / `dict.get(k)` for dicts that
are built with distinct keys.  Returns the first binding of the key. -/
def alist_get {α : Type} : List (String × α) → String → Option α
  | [], _ => none
  | (k, v) :: rest, key => if k = key then some v else alist_get rest key

/-- Python `x or default` for an optional string: the left value is kept
exactly when it is truthy, i.e. present and non-empty. -/
def pyOrStr (x : Option String) (default : String) : String :=
  match x with
  | none => default
  | some s => if s = "" then default else s

/-- Python `x or default` for an optional dict: the left value is kept
exactly when it is truthy, i.e. present and non-empty. -/
def pyOrDict {α : Type} (x : Option (List (String × α))) (default : List (String × α)) :
    List (String × α) :=
  match x with
  | none => default
  | some d => if d.isEmpty then default else d

/-- Python string slicing `s[:n]` (first `n` characters). -/
def pyTake (s : String) (n : Nat) : String :=
  ⟨s.data.take n⟩

/-- Python `str.lower()`, character by character. -/
def pyLower (s : String) : String :=
  ⟨s.data.map Char.toLower⟩

/-- Python substring test `needle in hay`. -/
def pyContainsSub (needle hay : String) : Bool :=
  decide (needle.data <:+: hay.data)

/-! ## Tool annotation filtering (claim C1)

`FilteredMCPTools` and `load_filtered_mcp_tools` live in the external
`ibmi_agent_sdk` package, which is not part of this repository's sources;
only their call sites are (`agents/builder.py`, the langchain
`ibmi_agents.py`).  The filtering layer itself is therefore modelled from
the spec. -/

/-- An MCP tool as advertised by the server: a name together with its
annotations, each annotation key carrying the list of tags the tool is
labelled with under that key (e.g. `toolsets ↦ ["performance"]`,
`domain ↦ ["security"]`). -/
structure MCPTool where
  name : String
  annotations : List (String × List String)
deriving DecidableEq, Repr

/-- Modelled from the spec: an annotation filter is "a declarative predicate
(e.g., matching a `toolsets` or `domain` tag) used to select a subset of
tools advertised by an MCP server".  A filter entry `(key, wanted)` is
satisfied when one of the wanted tags appears among the tool's tags for that
key; a tool matches when every filter entry is satisfied. -/
def matchesAnnotationFilters (annotation_filters : List (String × List String))
    (tool : MCPTool) : Bool :=
  annotation_filters.all fun kv =>
    kv.2.any fun wanted => ((alist_get tool.annotations kv.1).getD []).contains wanted

/-- Modelled from the spec: `load_filtered_mcp_tools` (from the external
`ibmi_agent_sdk`, not under the repository sources) selects the subset of the
advertised tools that satisfy the declared annotation filters. -/
def load_filtered_mcp_tools (advertised : List MCPTool)
    (annotation_filters : List (String × List String)) : List MCPTool :=
  advertised.filter (matchesAnnotationFilters annotation_filters)

/-- The annotation filter built by `AgentBuilder.build`
(`agents/builder.py`): `annotation_filters={"toolsets": self.toolsets}`. -/
def builder_toolsets_filter (toolsets : List String) : List (String × List String) :=
  [("toolsets", toolsets)]

/-- The filter passed by `create_security_ops_agent` when no category is
given: `annotation_filters={"domain": "security"}`. -/
def security_domain_filter : List (String × List String) :=
  [("domain", ["security"])]

/-- The filter passed by `create_security_ops_agent` with a category:
`annotation_filters={"domain": "security", "category": category}`. -/
def security_category_filter (category : String) : List (String × List String) :=
  [("domain", ["security"]), ("category", [category])]

/-! ## Model selection (`agents/utils/model_selector.py`, claim C9) -/

/-- An Agno model instance, as produced by the provider constructors; the
`preconfigured` constructor stands for an arbitrary pre-built model object
passed through unchanged. -/
inductive AgnoModel where
  | openAIChat (id : String)
  | claude (id : String)
  | ollama (id : String)
  | preconfigured (tag : String)
deriving DecidableEq, Repr

/-- The `model_spec : Union[str, Model]` argument of `get_model`. -/
inductive ModelSpec where
  | str (s : String)
  | inst (m : AgnoModel)
deriving DecidableEq, Repr

/-- Python `str.strip()` on a character list: drop leading and trailing
whitespace. -/
def pyStripChars (l : List Char) : List Char :=
  ((l.dropWhile Char.isWhitespace).reverse.dropWhile Char.isWhitespace).reverse

/-- The provider half of `model_spec.split(":", 1)` followed by
`.lower().strip()`, exactly as in `get_model`. -/
def providerOf (s : String) : List Char :=
  pyStripChars ((s.data.takeWhile fun c => c ≠ ':').map Char.toLower)

/-- The model-id half of `model_spec.split(":", 1)`. -/
def modelIdOf (s : String) : String :=
  ⟨(s.data.dropWhile fun c => c ≠ ':').drop 1⟩

/-- `get_model` from `agents/utils/model_selector.py`: a non-string spec is
returned directly; a string spec must contain a colon and a recognised
provider prefix, otherwise `ValueError` (modelled as `Except.error`). -/
def get_model : ModelSpec → Except String AgnoModel
  | ModelSpec.inst m => Except.ok m
  | ModelSpec.str s =>
    if ':' ∈ s.data then
      let provider := providerOf s
      let model_id := modelIdOf s
      if provider = "openai".data then Except.ok (AgnoModel.openAIChat model_id)
      else if provider = "anthropic".data then Except.ok (AgnoModel.claude model_id)
      else if provider = "ollama".data then Except.ok (AgnoModel.ollama model_id)
      else Except.error ("Unsupported provider: " ++ String.mk provider ++
        ". Supported providers: openai, anthropic, watsonx, ollama")
    else
      Except.error ("Invalid model specification: " ++ s ++
        ". Expected format: provider:model_id")

/-! ## Runtime configuration (`agents/config.py`, claim C10) -/

/-- The per-agent configuration record returned by
`AgentConfigManager.get_agent_config`; every field is optional.  The manager
itself (`infra/config_manager.py`) is not under the repository sources, so it
is modelled abstractly as a function from agent ids to such records. -/
structure AgentFileConfig where
  model : Option String
  debug_mode : Option Bool
  enable_reasoning : Option Bool

/-- The `AgentRunConfig` dataclass from `agents/config.py`. -/
structure AgentRunConfig where
  model : ModelSpec := ModelSpec.str "openai:gpt-4o"
  debug_mode : Bool := false
  enable_reasoning : Bool := true
  mcp_url : Option String := none
  transport : Option String := none
  debug_filtering : Bool := false
  config_manager : Option (String → AgentFileConfig) := none

/-- `AgentRunConfig.with_config_overrides`: returns `self` when no config
manager is set; otherwise builds a new config taking `model` via Python
`agent_config.model or self.model` (left kept only when present and
non-empty) and `debug_mode` / `enable_reasoning` via explicit
`is not None` checks, while `mcp_url`, `transport`, `debug_filtering` and
`config_manager` are copied from `self`. -/
def AgentRunConfig.with_config_overrides (c : AgentRunConfig) (agent_id : String) :
    AgentRunConfig :=
  match c.config_manager with
  | none => c
  | some get_agent_config =>
    let agent_config := get_agent_config agent_id
    { model :=
        match agent_config.model with
        | some s => if s = "" then c.model else ModelSpec.str s
        | none => c.model
      debug_mode := agent_config.debug_mode.getD c.debug_mode
      enable_reasoning := agent_config.enable_reasoning.getD c.enable_reasoning
      mcp_url := c.mcp_url
      transport := c.transport
      debug_filtering := c.debug_filtering
      config_manager := c.config_manager }

/-! ## Agent builder (`agents/builder.py`, claims C2 and C7) -/

/-- A Python scalar value, as stored in kwargs dictionaries. -/
inductive PyVal where
  | vbool (b : Bool)
  | vint (n : Int)
  | vstr (s : String)
  | vnone
deriving DecidableEq, Repr

/-- A tool instance placed in the `tools` list passed to `Agent()`:
`FilteredMCPTools(...)`, `ReasoningTools(add_instructions=True)`, or an
arbitrary additional custom tool. -/
inductive AgnoToolInst where
  | filteredMCP (url : String) (transport : String)
      (annotation_filters : List (String × List String)) (debug_filtering : Bool)
  | reasoningTools (add_instructions : Bool)
  | custom (tag : String)
deriving DecidableEq, Repr

/-- The module-level `DEFAULT_AGENT_KWARGS` dict of `agents/builder.py`. -/
def DEFAULT_AGENT_KWARGS : List (String × PyVal) :=
  [("markdown", PyVal.vbool true),
   ("add_datetime_to_context", PyVal.vbool true),
   ("search_session_history", PyVal.vbool true),
   ("num_history_sessions", PyVal.vint 2),
   ("add_history_to_context", PyVal.vbool true),
   ("num_history_runs", PyVal.vint 3),
   ("read_chat_history", PyVal.vbool true),
   ("read_tool_call_history", PyVal.vbool true),
   ("retries", PyVal.vint 3),
   ("enable_agentic_memory", PyVal.vbool true)]

/-- Python `dict.update(kw)`: existing keys keep their position and take the
new value; keys new to the dict are appended in the order of `kw`. -/
def dictUpdate (d kw : List (String × PyVal)) : List (String × PyVal) :=
  (d.map fun p =>
    match alist_get kw p.1 with
    | some v => (p.1, v)
    | none => p) ++
  kw.filter fun q => (alist_get d q.1).isNone

/-- The `AgentBuilder` state (`agents/builder.py`).  The Python methods
mutate `self` and return it; they are modelled as state-passing functions,
which is faithful because every method returns the very object it updated. -/
structure AgentBuilder where
  agent_id : String
  name : String
  description : String
  instructions : String
  toolsets : List String
  additional_tools : List AgnoToolInst
  agent_kwargs : List (String × PyVal)
deriving Repr

/-- `AgentBuilder.__init__`: empty texts and tool lists, and a per-builder
copy of `DEFAULT_AGENT_KWARGS` (the copy is what makes the pure model of
`with_agent_kwargs` faithful: updating it never touches the module-level
dict). -/
def AgentBuilder.init (agent_id name : String) : AgentBuilder :=
  { agent_id := agent_id, name := name, description := "", instructions := ""
    toolsets := [], additional_tools := [], agent_kwargs := DEFAULT_AGENT_KWARGS }

/-- `AgentBuilder.with_description`. -/
def AgentBuilder.with_description (b : AgentBuilder) (description : String) : AgentBuilder :=
  { b with description := description }

/-- `AgentBuilder.with_instructions`. -/
def AgentBuilder.with_instructions (b : AgentBuilder) (instructions : String) : AgentBuilder :=
  { b with instructions := instructions }

/-- `AgentBuilder.with_toolsets`: `self.toolsets = list(toolsets)`. -/
def AgentBuilder.with_toolsets (b : AgentBuilder) (toolsets : List String) : AgentBuilder :=
  { b with toolsets := toolsets }

/-- `AgentBuilder.with_additional_tools`: `self.additional_tools = list(tools)`. -/
def AgentBuilder.with_additional_tools (b : AgentBuilder) (tools : List AgnoToolInst) :
    AgentBuilder :=
  { b with additional_tools := tools }

/-- `AgentBuilder.with_agent_kwargs`: `self.agent_kwargs.update(kwargs)`. -/
def AgentBuilder.with_agent_kwargs (b : AgentBuilder) (kwargs : List (String × PyVal)) :
    AgentBuilder :=
  { b with agent_kwargs := dictUpdate b.agent_kwargs kwargs }

/-- The tools-list construction inside `AgentBuilder.build`:
apply the config-file overrides, start from an empty list, append a single
`FilteredMCPTools` when `self.toolsets` is truthy, extend with the additional
tools, and append `ReasoningTools` when the effective config enables
reasoning.  `env_mcp_url` / `env_mcp_transport` stand for
`env_config.mcp.url` / `env_config.mcp.transport` (environment-derived
fallbacks used through Python `or`). -/
def AgentBuilder.build_tools_list (b : AgentBuilder) (config : AgentRunConfig)
    (env_mcp_url env_mcp_transport : String) : List AgnoToolInst :=
  let effective_config := config.with_config_overrides b.agent_id
  let tools_list : List AgnoToolInst := []
  let tools_list :=
    if b.toolsets.isEmpty then tools_list
    else tools_list ++
      [AgnoToolInst.filteredMCP
        (pyOrStr effective_config.mcp_url env_mcp_url)
        (pyOrStr effective_config.transport env_mcp_transport)
        (builder_toolsets_filter b.toolsets)
        effective_config.debug_filtering]
  let tools_list := tools_list ++ b.additional_tools
  let tools_list :=
    if effective_config.enable_reasoning then
      tools_list ++ [AgnoToolInst.reasoningTools true]
    else tools_list
  tools_list

/-! ## Agent registry (`agents/registry.py`, claim C8) -/

/-- The `AgentMetadata` Pydantic model (identity fields only; validation of
the id pattern is done by Pydantic and is not needed by the claim). -/
structure AgentMetadata where
  id : String
  name : String
  description : String
  category : String := "ibmi"
  tags : List String := []

/-- An `AgentRegistration` record pairing metadata with a factory function;
the factory is kept polymorphic so that "forwards all arguments and returns
the result" is about arbitrary call behaviour. -/
structure AgentRegistration (α β : Type) where
  metadata : AgentMetadata
  factory : α → β

/-- The module-level `_AGENT_REGISTRY` dict, modelled as an association list
(insertion order preserved, as in a Python dict). -/
abbrev Registry (α β : Type) : Type := List (String × AgentRegistration α β)

/-- `register_agent(metadata)(factory_func)` acting on an explicit registry
state: raises `ValueError` (before any mutation) when the id is already
registered, otherwise inserts the new registration at the end. -/
def register_agent {α β : Type} (metadata : AgentMetadata) (reg : Registry α β)
    (factory_func : α → β) : Except String (Registry α β) :=
  match alist_get reg metadata.id with
  | some existing =>
    Except.error ("Agent ID " ++ metadata.id ++ " is already registered. Existing: " ++
      existing.metadata.name)
  | none =>
    Except.ok (reg ++ [(metadata.id, ⟨metadata, factory_func⟩)])

/-- The wrapper returned by the decorator: forwards all arguments to the
original factory function. -/
def registry_wrapper {α β : Type} (factory_func : α → β) : α → β :=
  fun args => factory_func args

/-- `get_agent_by_id`: `_AGENT_REGISTRY.get(agent_id)`. -/
def get_agent_by_id {α β : Type} (reg : Registry α β) (agent_id : String) :
    Option (AgentRegistration α β) :=
  alist_get reg agent_id

/-- A sequence of decorator applications starting from a registry state: a
failed registration raises before mutating, so it leaves the registry
unchanged. -/
def register_all {α β : Type} (reg : Registry α β)
    (attempts : List (AgentMetadata × (α → β))) : Registry α β :=
  match attempts with
  | [] => reg
  | (m, f) :: rest =>
    match register_agent m reg f with
    | Except.ok reg' => register_all reg' rest
    | Except.error _ => register_all reg rest

/-! ## Langchain tool metadata helpers
(`frameworks/langchain/src/ibmi_agents/agents/ibmi_agents.py`, claim C3) -/

/-- A LangChain tool as seen by `_get_non_readonly_tools`: a name and an
optional metadata dict.  `metadata = none` covers both a missing `metadata`
attribute and `metadata is None`; an empty dict is falsy in Python and is
handled by the code's truthiness test. -/
structure LCTool where
  name : String
  metadata : Option (List (String × PyVal))
deriving DecidableEq, Repr

/-- `_get_non_readonly_tools`: collect, in order, the names of the tools
whose (present, truthy) metadata has `readOnlyHint` identically `False`;
the `.get` default `True` excludes tools without the key. -/
def get_non_readonly_tools : List LCTool → List String
  | [] => []
  | tool :: rest =>
    let tail := get_non_readonly_tools rest
    match tool.metadata with
    | none => tail
    | some md =>
      if md.isEmpty then tail
      else
        match alist_get md "readOnlyHint" with
        | some v => if v = PyVal.vbool false then tool.name :: tail else tail
        | none => tail

/-- The characterisation used in the claim: metadata is present, truthy, and
binds `readOnlyHint` to the Boolean `False`. -/
def isNonReadonlyTool (tool : LCTool) : Bool :=
  match tool.metadata with
  | none => false
  | some md => !md.isEmpty && alist_get md "readOnlyHint" = some (PyVal.vbool false)

/-- A LangChain middleware instance; only `HumanInTheLoopMiddleware` occurs
here, carrying its `interrupt_on` dict (tool name to decision policy). -/
inductive LCMiddleware where
  | humanInTheLoop (interrupt_on : List (String × List (String × List String)))
deriving DecidableEq, Repr

/-- The `interrupt_config` dict built in `create_security_ops_agent`: one
entry per non-readonly tool, each mapped to
`{"allowed_decision": ["approve", "reject"]}`. -/
def security_interrupt_config (tools : List LCTool) :
    List (String × List (String × List String)) :=
  (get_non_readonly_tools tools).map fun tool_name =>
    (tool_name, [("allowed_decision", ["approve", "reject"])])

/-- The `middleware` list built in `create_security_ops_agent`: when
human-in-the-loop is enabled and the non-readonly set is non-empty, a single
`HumanInTheLoopMiddleware` over `interrupt_config`; otherwise empty (and the
`middleware` kwarg is only passed to `create_agent` when the list is
non-empty). -/
def security_middleware (enable_human_in_loop : Bool) (tools : List LCTool) :
    List LCMiddleware :=
  if enable_human_in_loop then
    let non_readonly_tools := get_non_readonly_tools tools
    if non_readonly_tools.isEmpty then []
    else [LCMiddleware.humanInTheLoop (security_interrupt_config tools)]
  else []

/-! ## Workflow step inputs and outputs (claims C4, C5, C6)

The agno `StepInput` / `StepOutput` types are external; only the fields the
repository's workflow functions read and build are modelled: the previous
step's content and the named step outputs (strings for ordinary steps, a
dict of sub-step contents for a parallel block). -/

/-- A `StepInput` whose named step outputs are strings (the shape seen by
`needs_deeper_investigation` and `deep_performance_analysis`). -/
structure StepInputS where
  previous_step_content : Option String
  step_contents : List (String × String)

/-- `step_input.get_step_content(name)` for string-valued outputs. -/
def StepInputS.get_step_content (si : StepInputS) (name : String) : Option String :=
  alist_get si.step_contents name

/-- A `StepInput` whose named step outputs are dicts of sub-step contents
(the shape seen by `synthesize_capacity_data` after a parallel block). -/
structure StepInputP where
  step_contents : List (String × List (String × String))

/-- `step_input.get_step_content(name)` for a parallel block: a dict keyed
by the sub-step names. -/
def StepInputP.get_step_content (si : StepInputP) (name : String) :
    Option (List (String × String)) :=
  alist_get si.step_contents name

/-- The agno `StepOutput` record (the fields the workflows set). -/
structure StepOutput where
  step_name : String
  content : String
  success : Bool
deriving DecidableEq, Repr

/-! ### System health audit (`workflows/system_health_audit.py`, claim C4) -/

/-- The `concern_indicators` keyword list of `needs_deeper_investigation`. -/
def concern_indicators : List String :=
  ["warning", "high", "critical", "exceed", "bottleneck", "slow", "issue",
   "problem", "concern", "degradation", "utilization above", "approaching limit"]

/-- `needs_deeper_investigation`: lowercase the previous step's content
(`None` becomes the empty string) and test whether any concern indicator
occurs in it as a substring. -/
def needs_deeper_investigation (step_input : StepInputS) : Bool :=
  let health_content := step_input.previous_step_content.getD ""
  concern_indicators.any fun indicator => pyContainsSub indicator (pyLower health_content)

/-- The agno `Condition` construct, reduced to the data the repository
declares: a name, a Boolean evaluator, and the names of its sub-steps. -/
structure WfCondition where
  name : String
  evaluator : StepInputS → Bool
  steps : List String

/-- The `DeepInvestigation` condition of `system_health_audit_workflow`:
evaluator `needs_deeper_investigation` guarding the three deep-investigation
steps. -/
def deepInvestigationCondition : WfCondition :=
  { name := "DeepInvestigation"
    evaluator := needs_deeper_investigation
    steps := ["ServiceAnalysis", "ConfigurationReview", "BestPracticesCheck"] }

/-- Modelled from the spec: the agno engine is external; per the spec a
workflow is "a fixed sequence (optionally with parallel branches and boolean
conditions) of named steps", so a condition executes its sub-steps exactly
when its evaluator returns true, and skips them all otherwise. -/
def condition_executed_steps (c : WfCondition) (si : StepInputS) : List String :=
  if c.evaluator si then c.steps else []

/-! ### Performance investigation (`workflows/performance_investigation.py`,
claim C5) -/

/-- The f-string template of `deep_performance_analysis`, as a function of
the two interpolated (already truncated) data segments. -/
def mk_analysis_prompt (metrics services : String) : String :=
  "\n    Perform deep performance analysis using all available data:\n\n" ++
  "    ## INITIAL METRICS GATHERED:\n    " ++ metrics ++
  "... [truncated for analysis focus]\n\n" ++
  "    ## AVAILABLE MONITORING SERVICES:\n    " ++ services ++
  "... [truncated for analysis focus]\n\n" ++
  "    ## YOUR DEEP ANALYSIS TASKS:\n\n" ++
  "    1. **Pattern Analysis**:\n" ++
  "       - Analyze CPU usage patterns vs. job activity\n" ++
  "       - Examine memory pool utilization vs. thread counts\n" ++
  "       - Identify I/O patterns and potential bottlenecks\n" ++
  "       - Look for temporal trends in the metrics\n\n" ++
  "    2. **Use Reasoning Tools**:\n" ++
  "       - Use think() to structure your diagnostic approach\n" ++
  "       - Use analyze() to examine metric relationships and correlations\n" ++
  "       - Consider multiple hypotheses for root causes\n" ++
  "       - Evaluate system architecture implications\n\n" ++
  "    3. **Identify Specific Issues**:\n" ++
  "       - Resource contentions\n" ++
  "       - Configuration problems\n" ++
  "       - Capacity limitations\n" ++
  "       - Workload imbalances\n\n" ++
  "    4. **Assess Severity and Impact**:\n" ++
  "       - Critical issues requiring immediate action\n" ++
  "       - Performance degradation affecting users\n" ++
  "       - Efficiency improvements for optimization\n" ++
  "       - Preventive measures for future issues\n\n" ++
  "    Show your reasoning process for the diagnosis.\n    "

/-- `deep_performance_analysis`: read the `InitialMetrics` and
`MonitoringServices` step outputs (empty string when absent), build the
analysis prompt from their first 1000 / 500 characters, and return a
successful `StepOutput` named `DeepAnalysis`. -/
def deep_performance_analysis (step_input : StepInputS) : StepOutput :=
  let metrics_data := pyOrStr (step_input.get_step_content "InitialMetrics") ""
  let services_data := pyOrStr (step_input.get_step_content "MonitoringServices") ""
  let analysis_prompt :=
    mk_analysis_prompt (pyTake metrics_data 1000) (pyTake services_data 500)
  { step_name := "DeepAnalysis", content := analysis_prompt, success := true }

/-! ### Capacity planning (`app/workflows/capacity_planning.py`, claim C6) -/

/-- The agno `Parallel` construct, reduced to the data the repository
declares: a name and its sub-step names. -/
structure WfParallel where
  name : String
  step_names : List String
deriving DecidableEq, Repr

/-- The `parallel_gathering` block of `capacity_planning_workflow`. -/
def parallel_gathering : WfParallel :=
  { name := "ParallelCapacityGathering"
    step_names := ["CurrentUtilization", "ServiceInventory"] }

/-- The f-string template of `synthesize_capacity_data`, as a function of the
two interpolated (already truncated) data segments. -/
def mk_synthesis_prompt (utilization services : String) : String :=
  "\n    Synthesize capacity planning data from parallel assessments:\n\n" ++
  "    ## CURRENT UTILIZATION DATA:\n    " ++ utilization ++ "\n\n" ++
  "    ## AVAILABLE MONITORING SERVICES:\n    " ++ services ++ "\n\n" ++
  "    ## SYNTHESIS TASKS:\n\n" ++
  "    1. **Identify Resource Patterns**:\n" ++
  "       - Peak usage periods for CPU, memory, storage\n" ++
  "       - Growth trends over time (if visible in data)\n" ++
  "       - Resource headroom available\n" ++
  "       - Bottlenecks or constraints\n\n" ++
  "    2. **Use Reasoning for Capacity Analysis**:\n" ++
  "       - Use think() to structure capacity assessment approach\n" ++
  "       - Use analyze() to examine utilization patterns\n" ++
  "       - Consider seasonal variations\n" ++
  "       - Evaluate current vs. optimal capacity\n\n" ++
  "    3. **Baseline Current State**:\n" ++
  "       - Document current capacity metrics\n" ++
  "       - Identify normal operating ranges\n" ++
  "       - Note any anomalies or concerns\n" ++
  "       - Establish baseline for future comparison\n\n" ++
  "    Provide structured capacity assessment for planning.\n    "

/-- `synthesize_capacity_data`: read the parallel block's output by its name
`ParallelCapacityGathering` (empty dict when absent or falsy), read the two
sub-step contents with empty-string defaults, build the synthesis prompt
from their first 1500 / 800 characters, and return a successful `StepOutput`
named `CapacitySynthesis`. -/
def synthesize_capacity_data (step_input : StepInputP) : StepOutput :=
  let parallel_outputs := pyOrDict (step_input.get_step_content "ParallelCapacityGathering") []
  let utilization_data := (alist_get parallel_outputs "CurrentUtilization").getD ""
  let service_data := (alist_get parallel_outputs "ServiceInventory").getD ""
  let synthesis_prompt :=
    mk_synthesis_prompt (pyTake utilization_data 1500) (pyTake service_data 800)
  { step_name := "CapacitySynthesis", content := synthesis_prompt, success := true }

/-! ## Helper lemmas -/

theorem alist_get_append {γ : Type} (l₁ l₂ : List (String × γ)) (k : String) :
    alist_get (l₁ ++ l₂) k = (alist_get l₁ k <|> alist_get l₂ k) := by
  induction l₁ with
  | nil => simp [alist_get]
  | cons p t ih =>
    by_cases h : p.1 = k
    · simp [alist_get, h]
    · simp [alist_get, h, ih]

theorem pyTake_length_le (s : String) (n : Nat) : (pyTake s n).length ≤ n := by
  have : (pyTake s n).length = (s.data.take n).length := rfl
  rw [this, List.length_take]
  exact min_le_left _ _

theorem pyTake_isPrefix (s : String) (n : Nat) : (pyTake s n).data <+: s.data :=
  List.take_prefix n s.data

/-! ## Claim theorems -/

/-- C1: for every set of advertised tools and every annotation filter (in
particular the `toolsets` filter built by `AgentBuilder.build` and the
`domain`/`category` filters passed by `create_security_ops_agent`), every
tool selected by the filtering layer was among the advertised tools and
satisfies the declared annotation predicate; no tool is invented. -/
theorem filtered_tools_subset_of_advertised
    (advertised : List MCPTool) (annotation_filters : List (String × List String))
    (t : MCPTool) (ht : t ∈ load_filtered_mcp_tools advertised annotation_filters) :
    t ∈ advertised ∧ matchesAnnotationFilters annotation_filters t = true := by
  simpa [load_filtered_mcp_tools, List.mem_filter] using ht

theorem filtered_tools_subset_of_advertised_witness :
    (MCPTool.mk "perf_tool" [("toolsets", ["performance"])]) ∈
      [MCPTool.mk "perf_tool" [("toolsets", ["performance"])],
       MCPTool.mk "other_tool" [("toolsets", ["browse"])]] ∧
    matchesAnnotationFilters (builder_toolsets_filter ["performance"])
      (MCPTool.mk "perf_tool" [("toolsets", ["performance"])]) = true :=
  filtered_tools_subset_of_advertised
    [MCPTool.mk "perf_tool" [("toolsets", ["performance"])],
     MCPTool.mk "other_tool" [("toolsets", ["browse"])]]
    (builder_toolsets_filter ["performance"])
    (MCPTool.mk "perf_tool" [("toolsets", ["performance"])])
    (by decide)

/-- C2: `AgentBuilder.build` composes the tools list as: one
`FilteredMCPTools` with `annotation_filters = {"toolsets": declared list}`
exactly when at least one toolset was declared, then the additional tools in
their given order, then a `ReasoningTools` exactly when the effective
config's `enable_reasoning` holds. -/
theorem build_tools_list_composition
    (b : AgentBuilder) (config : AgentRunConfig) (env_mcp_url env_mcp_transport : String) :
    b.build_tools_list config env_mcp_url env_mcp_transport =
      (if b.toolsets = [] then []
       else
         [AgnoToolInst.filteredMCP
           (pyOrStr (config.with_config_overrides b.agent_id).mcp_url env_mcp_url)
           (pyOrStr (config.with_config_overrides b.agent_id).transport env_mcp_transport)
           (builder_toolsets_filter b.toolsets)
           (config.with_config_overrides b.agent_id).debug_filtering]) ++
      b.additional_tools ++
      (if (config.with_config_overrides b.agent_id).enable_reasoning then
        [AgnoToolInst.reasoningTools true]
      else []) := by
  unfold AgentBuilder.build_tools_list
  cases hts : b.toolsets with
  | nil =>
    cases her : (config.with_config_overrides b.agent_id).enable_reasoning <;>
      simp [hts, her]
  | cons x xs =>
    cases her : (config.with_config_overrides b.agent_id).enable_reasoning <;>
      simp [hts, her]

/-- C4: `needs_deeper_investigation` returns true exactly when the
lowercased previous step content contains one of the twelve concern
indicators as a substring; a `None` previous content is treated as the empty
string, the evaluator returns false, and the `DeepInvestigation` condition
then executes none of its three deep-investigation steps. -/
theorem needs_deeper_investigation_spec :
    (∀ si : StepInputS,
      needs_deeper_investigation si = true ↔
        ∃ indicator ∈ concern_indicators,
          indicator.data <:+: (pyLower (si.previous_step_content.getD "")).data) ∧
    (∀ si : StepInputS, si.previous_step_content = none →
      needs_deeper_investigation si = false ∧
      condition_executed_steps deepInvestigationCondition si = []) := by
  constructor
  · intro si
    simp [needs_deeper_investigation, pyContainsSub, List.any_eq_true]
  · intro si h
    have hfalse : needs_deeper_investigation si = false := by
      simp only [needs_deeper_investigation, h, Option.getD_none]
      decide
    refine ⟨hfalse, ?_⟩
    simp [condition_executed_steps, deepInvestigationCondition, hfalse]

theorem needs_deeper_investigation_spec_witness :
    needs_deeper_investigation (StepInputS.mk none []) = false ∧
    condition_executed_steps deepInvestigationCondition (StepInputS.mk none []) = [] :=
  needs_deeper_investigation_spec.2 (StepInputS.mk none []) rfl

/-- C5: `deep_performance_analysis` reads `InitialMetrics` and
`MonitoringServices` by name with empty-string defaults, embeds exactly the
first 1000 and 500 characters of them (a prefix of length at most the bound)
into the analysis prompt, and always returns a successful `StepOutput`
named `DeepAnalysis`. -/
theorem deep_performance_analysis_spec (si : StepInputS) :
    (deep_performance_analysis si).step_name = "DeepAnalysis" ∧
    (deep_performance_analysis si).success = true ∧
    (deep_performance_analysis si).content =
      mk_analysis_prompt
        (pyTake (pyOrStr (si.get_step_content "InitialMetrics") "") 1000)
        (pyTake (pyOrStr (si.get_step_content "MonitoringServices") "") 500) ∧
    (pyTake (pyOrStr (si.get_step_content "InitialMetrics") "") 1000).length ≤ 1000 ∧
    (pyTake (pyOrStr (si.get_step_content "InitialMetrics") "") 1000).data <+:
      (pyOrStr (si.get_step_content "InitialMetrics") "").data ∧
    (pyTake (pyOrStr (si.get_step_content "MonitoringServices") "") 500).length ≤ 500 ∧
    (pyTake (pyOrStr (si.get_step_content "MonitoringServices") "") 500).data <+:
      (pyOrStr (si.get_step_content "MonitoringServices") "").data :=
  ⟨rfl, rfl, rfl, pyTake_length_le _ _, pyTake_isPrefix _ _,
   pyTake_length_le _ _, pyTake_isPrefix _ _⟩

/-- C6: the capacity-planning parallel block is named
`ParallelCapacityGathering` with sub-steps `CurrentUtilization` and
`ServiceInventory`; `synthesize_capacity_data` reads the block's output by
that name as a dict keyed by the sub-step names with empty defaults, embeds
exactly the first 1500 and 800 characters of the two contents into the
synthesis prompt, and always returns a successful `StepOutput`. -/
theorem synthesize_capacity_data_spec :
    parallel_gathering.name = "ParallelCapacityGathering" ∧
    parallel_gathering.step_names = ["CurrentUtilization", "ServiceInventory"] ∧
    ∀ si : StepInputP,
      (synthesize_capacity_data si).success = true ∧
      (synthesize_capacity_data si).step_name = "CapacitySynthesis" ∧
      (synthesize_capacity_data si).content =
        mk_synthesis_prompt
          (pyTake ((alist_get (pyOrDict (si.get_step_content "ParallelCapacityGathering") [])
            "CurrentUtilization").getD "") 1500)
          (pyTake ((alist_get (pyOrDict (si.get_step_content "ParallelCapacityGathering") [])
            "ServiceInventory").getD "") 800) ∧
      (pyTake ((alist_get (pyOrDict (si.get_step_content "ParallelCapacityGathering") [])
        "CurrentUtilization").getD "") 1500).length ≤ 1500 ∧
      (pyTake ((alist_get (pyOrDict (si.get_step_content "ParallelCapacityGathering") [])
        "ServiceInventory").getD "") 800).length ≤ 800 :=
  ⟨rfl, rfl, fun _ => ⟨rfl, rfl, rfl, pyTake_length_le _ _, pyTake_length_le _ _⟩⟩

/-- C3: `_get_non_readonly_tools` returns exactly the names of the tools
whose present, truthy metadata binds `readOnlyHint` to `False` (missing
metadata, empty metadata and a missing key default to read-only and are
excluded); under `enable_human_in_loop` the human-in-the-loop middleware is
attached exactly when that set is non-empty, and its interrupt configuration
is keyed by exactly those tool names. -/
theorem get_non_readonly_tools_spec :
    (∀ tools : List LCTool,
      get_non_readonly_tools tools = (tools.filter isNonReadonlyTool).map LCTool.name) ∧
    (∀ tools : List LCTool,
      (get_non_readonly_tools tools = [] → security_middleware true tools = []) ∧
      (get_non_readonly_tools tools ≠ [] →
        security_middleware true tools =
          [LCMiddleware.humanInTheLoop (security_interrupt_config tools)] ∧
        (security_interrupt_config tools).map Prod.fst = get_non_readonly_tools tools)) := by
  have hmain : ∀ tools : List LCTool,
      get_non_readonly_tools tools = (tools.filter isNonReadonlyTool).map LCTool.name := by
    intro tools
    induction tools with
    | nil => rfl
    | cons t ts ih =>
      cases hm : t.metadata with
      | none =>
        simp [get_non_readonly_tools, isNonReadonlyTool, hm, ih, List.filter_cons]
      | some md =>
        by_cases he : md.isEmpty
        · simp [get_non_readonly_tools, isNonReadonlyTool, hm, he, ih, List.filter_cons]
        · cases hl : alist_get md "readOnlyHint" with
          | none =>
            simp [get_non_readonly_tools, isNonReadonlyTool, hm, he, hl, ih, List.filter_cons]
          | some v =>
            by_cases hv : v = PyVal.vbool false
            · simp [get_non_readonly_tools, isNonReadonlyTool, hm, he, hl, hv, ih,
                List.filter_cons]
            · simp [get_non_readonly_tools, isNonReadonlyTool, hm, he, hl, hv, ih,
                List.filter_cons]
  refine ⟨hmain, fun tools => ⟨fun h => by simp [security_middleware, h], fun h => ?_⟩⟩
  have hne : (get_non_readonly_tools tools).isEmpty = false := by
    cases hg : get_non_readonly_tools tools with
    | nil => exact absurd hg h
    | cons a l => rfl
  refine ⟨by simp [security_middleware, hne], ?_⟩
  simp [security_interrupt_config, List.map_map, Function.comp_def]

theorem get_non_readonly_tools_spec_witness :
    security_middleware true
      [LCTool.mk "remediate_cmd" (some [("readOnlyHint", PyVal.vbool false)]),
       LCTool.mk "list_users" (some [("readOnlyHint", PyVal.vbool true)]),
       LCTool.mk "plain_tool" none] =
      [LCMiddleware.humanInTheLoop
        (security_interrupt_config
          [LCTool.mk "remediate_cmd" (some [("readOnlyHint", PyVal.vbool false)]),
           LCTool.mk "list_users" (some [("readOnlyHint", PyVal.vbool true)]),
           LCTool.mk "plain_tool" none])] ∧
    (security_interrupt_config
      [LCTool.mk "remediate_cmd" (some [("readOnlyHint", PyVal.vbool false)]),
       LCTool.mk "list_users" (some [("readOnlyHint", PyVal.vbool true)]),
       LCTool.mk "plain_tool" none]).map Prod.fst =
      get_non_readonly_tools
        [LCTool.mk "remediate_cmd" (some [("readOnlyHint", PyVal.vbool false)]),
         LCTool.mk "list_users" (some [("readOnlyHint", PyVal.vbool true)]),
         LCTool.mk "plain_tool" none] :=
  (get_non_readonly_tools_spec.2
    [LCTool.mk "remediate_cmd" (some [("readOnlyHint", PyVal.vbool false)]),
     LCTool.mk "list_users" (some [("readOnlyHint", PyVal.vbool true)]),
     LCTool.mk "plain_tool" none]).2 (by decide)

/-- C7: the builder configuration methods are modelled as state passing
(each Python method mutates `self` and returns it, so chained and sequential
calls act on the same state); a second `with_toolsets` or
`with_additional_tools` call replaces the stored list (last-write-wins,
hence idempotent for identical calls); setters of distinct fields commute;
`__init__` starts from a per-builder copy of `DEFAULT_AGENT_KWARGS`; and
`with_agent_kwargs` merges its arguments over the builder's own kwargs
without touching any other field (the module-level default dict, being
copied at `__init__`, is never modified). -/
theorem builder_fluent_api_spec :
    (∀ (b : AgentBuilder) (ts₁ ts₂ : List String),
      (b.with_toolsets ts₁).with_toolsets ts₂ = b.with_toolsets ts₂) ∧
    (∀ (b : AgentBuilder) (tl₁ tl₂ : List AgnoToolInst),
      (b.with_additional_tools tl₁).with_additional_tools tl₂ =
        b.with_additional_tools tl₂) ∧
    (∀ (b : AgentBuilder) (ts : List String),
      (b.with_toolsets ts).with_toolsets ts = b.with_toolsets ts) ∧
    (∀ (b : AgentBuilder) (d ins : String),
      (b.with_description d).with_instructions ins =
        (b.with_instructions ins).with_description d) ∧
    (∀ agent_id name : String,
      (AgentBuilder.init agent_id name).agent_kwargs = DEFAULT_AGENT_KWARGS) ∧
    (∀ (b : AgentBuilder) (kwargs : List (String × PyVal)),
      (b.with_agent_kwargs kwargs).agent_kwargs = dictUpdate b.agent_kwargs kwargs ∧
      (b.with_agent_kwargs kwargs).agent_id = b.agent_id ∧
      (b.with_agent_kwargs kwargs).name = b.name ∧
      (b.with_agent_kwargs kwargs).description = b.description ∧
      (b.with_agent_kwargs kwargs).instructions = b.instructions ∧
      (b.with_agent_kwargs kwargs).toolsets = b.toolsets ∧
      (b.with_agent_kwargs kwargs).additional_tools = b.additional_tools) :=
  ⟨fun _ _ _ => rfl, fun _ _ _ => rfl, fun _ _ => rfl, fun _ _ _ => rfl,
   fun _ _ => rfl, fun _ _ => ⟨rfl, rfl, rfl, rfl, rfl, rfl, rfl⟩⟩

theorem register_all_lookup_isSome {α β : Type}
    (attempts : List (AgentMetadata × (α → β))) (reg : Registry α β) (i : String) :
    (get_agent_by_id (register_all reg attempts) i).isSome ↔
      (get_agent_by_id reg i).isSome ∨ ∃ p ∈ attempts, p.1.id = i := by
  induction attempts generalizing reg with
  | nil => simp [register_all]
  | cons pf rest ih =>
    obtain ⟨m, f⟩ := pf
    cases h : alist_get reg m.id with
    | some existing =>
      have hreg : register_all reg ((m, f) :: rest) = register_all reg rest := by
        simp [register_all, register_agent, h]
      rw [hreg, ih]
      have hm : m.id = i → (get_agent_by_id reg i).isSome := by
        intro hi; rw [← hi]; simp [get_agent_by_id, h]
      constructor
      · rintro (hs | ⟨p, hp, hpi⟩)
        · exact Or.inl hs
        · exact Or.inr ⟨p, List.mem_cons_of_mem _ hp, hpi⟩
      · rintro (hs | ⟨p, hp, hpi⟩)
        · exact Or.inl hs
        · rcases List.mem_cons.mp hp with hpe | hpr
          · subst hpe; exact Or.inl (hm hpi)
          · exact Or.inr ⟨p, hpr, hpi⟩
    | none =>
      have hreg : register_all reg ((m, f) :: rest) =
          register_all (reg ++ [(m.id, ⟨m, f⟩)]) rest := by
        simp [register_all, register_agent, h]
      rw [hreg, ih]
      have happ : (get_agent_by_id (reg ++ [(m.id, ⟨m, f⟩)]) i).isSome ↔
          (get_agent_by_id reg i).isSome ∨ m.id = i := by
        rw [get_agent_by_id, alist_get_append]
        cases hg : alist_get reg i with
        | some v => simp [get_agent_by_id, hg]
        | none =>
          by_cases hmi : m.id = i <;> simp [get_agent_by_id, hg, alist_get, hmi]
      rw [happ]
      constructor
      · rintro ((hs | hmi) | ⟨p, hp, hpi⟩)
        · exact Or.inl hs
        · exact Or.inr ⟨(m, f), List.mem_cons_self _ _, hmi⟩
        · exact Or.inr ⟨p, List.mem_cons_of_mem _ hp, hpi⟩
      · rintro (hs | ⟨p, hp, hpi⟩)
        · exact Or.inl (Or.inl hs)
        · rcases List.mem_cons.mp hp with hpe | hpr
          · subst hpe; exact Or.inl (Or.inr hpi)
          · exact Or.inr ⟨p, hpr, hpi⟩

/-- C8: registering a duplicate agent id raises `ValueError` before any
mutation (the registry state is untouched); registering a fresh id appends
exactly one entry, after which `get_agent_by_id` returns the new
metadata/factory pair for that id and is unchanged for every other id;
starting from the empty registry, `get_agent_by_id` is `some` exactly for
the ids that appeared in a registration attempt; and the decorator's wrapper
forwards every argument to the original factory unchanged. -/
theorem register_agent_registry_spec (α β : Type) :
    (∀ (reg : Registry α β) (m : AgentMetadata) (f : α → β) (r : AgentRegistration α β),
      get_agent_by_id reg m.id = some r →
      register_agent m reg f =
        Except.error ("Agent ID " ++ m.id ++ " is already registered. Existing: " ++
          r.metadata.name)) ∧
    (∀ (reg : Registry α β) (m : AgentMetadata) (f : α → β),
      get_agent_by_id reg m.id = none →
      register_agent m reg f = Except.ok (reg ++ [(m.id, ⟨m, f⟩)]) ∧
      get_agent_by_id (reg ++ [(m.id, ⟨m, f⟩)]) m.id = some ⟨m, f⟩ ∧
      ∀ i, i ≠ m.id →
        get_agent_by_id (reg ++ [(m.id, ⟨m, f⟩)]) i = get_agent_by_id reg i) ∧
    (∀ (attempts : List (AgentMetadata × (α → β))) (i : String),
      (get_agent_by_id (register_all ([] : Registry α β) attempts) i).isSome ↔
        ∃ p ∈ attempts, p.1.id = i) ∧
    (∀ f : α → β, registry_wrapper f = f) := by
  refine ⟨?_, ?_, ?_, fun f => rfl⟩
  · intro reg m f r h
    unfold get_agent_by_id at h
    simp [register_agent, h]
  · intro reg m f h
    unfold get_agent_by_id at h
    refine ⟨by simp [register_agent, h], ?_, ?_⟩
    · rw [get_agent_by_id, alist_get_append]
      simp [h, alist_get]
    · intro i hi
      rw [get_agent_by_id, alist_get_append, get_agent_by_id]
      cases hg : alist_get reg i with
      | some v => simp
      | none =>
        have : ¬ m.id = i := fun hh => hi hh.symm
        simp [alist_get, this]
  · intro attempts i
    rw [register_all_lookup_isSome]
    simp [get_agent_by_id, alist_get]

theorem register_agent_registry_spec_witness :
    register_agent (AgentMetadata.mk "perf" "Performance Monitor" "monitoring" "ibmi" [])
        ([] : Registry Nat Nat) (fun n => n + 1) =
      Except.ok
        [("perf",
          ⟨AgentMetadata.mk "perf" "Performance Monitor" "monitoring" "ibmi" [],
           fun n => n + 1⟩)] ∧
    get_agent_by_id
      [("perf",
        ⟨AgentMetadata.mk "perf" "Performance Monitor" "monitoring" "ibmi" [],
         fun n => n + 1⟩)] "perf" =
      some ⟨AgentMetadata.mk "perf" "Performance Monitor" "monitoring" "ibmi" [],
        fun n => n + 1⟩ ∧
    ∀ i, i ≠ "perf" →
      get_agent_by_id
        [("perf",
          ⟨AgentMetadata.mk "perf" "Performance Monitor" "monitoring" "ibmi" [],
           fun n => n + 1⟩)] i =
        get_agent_by_id ([] : Registry Nat Nat) i :=
  (register_agent_registry_spec Nat Nat).2.1 []
    (AgentMetadata.mk "perf" "Performance Monitor" "monitoring" "ibmi" [])
    (fun n => n + 1) rfl

theorem takeWhileNeColon_aux (l₁ l₂ : List Char) (h : ':' ∉ l₁) :
    (l₁ ++ ':' :: l₂).takeWhile (fun c => c ≠ ':') = l₁ := by
  induction l₁ with
  | nil => simp [List.takeWhile_cons]
  | cons a t ih =>
    have ha : a ≠ ':' := fun hh => h (by simp [hh])
    have ht : ':' ∉ t := fun hh => h (List.mem_cons_of_mem _ hh)
    rw [List.cons_append, List.takeWhile_cons, if_pos (decide_eq_true ha), ih ht]

/-- C9: `get_model` returns a non-string model instance unchanged; a string
without a colon raises `ValueError`; a string whose normalised provider
prefix is none of `openai`, `anthropic`, `ollama` raises `ValueError`; in
particular every `watsonx:<model>` specification raises, even though the
docstring and the error message list watsonx among the supported
providers. -/
theorem get_model_spec :
    (∀ m : AgnoModel, get_model (ModelSpec.inst m) = Except.ok m) ∧
    (∀ s : String, ':' ∉ s.data →
      get_model (ModelSpec.str s) =
        Except.error ("Invalid model specification: " ++ s ++
          ". Expected format: provider:model_id")) ∧
    (∀ s : String, ':' ∈ s.data →
      providerOf s ∉ ["openai".data, "anthropic".data, "ollama".data] →
      get_model (ModelSpec.str s) =
        Except.error ("Unsupported provider: " ++ String.mk (providerOf s) ++
          ". Supported providers: openai, anthropic, watsonx, ollama")) ∧
    (∀ model_id : String,
      get_model (ModelSpec.str ("watsonx:" ++ model_id)) =
        Except.error ("Unsupported provider: watsonx" ++
          ". Supported providers: openai, anthropic, watsonx, ollama")) := by
  have herr : ∀ s : String, ':' ∈ s.data →
      providerOf s ∉ ["openai".data, "anthropic".data, "ollama".data] →
      get_model (ModelSpec.str s) =
        Except.error ("Unsupported provider: " ++ String.mk (providerOf s) ++
          ". Supported providers: openai, anthropic, watsonx, ollama") := by
    intro s h1 h2
    have hne1 : ¬ (providerOf s = "openai".data) := fun hh => h2 (by simp [hh])
    have hne2 : ¬ (providerOf s = "anthropic".data) := fun hh => h2 (by simp [hh])
    have hne3 : ¬ (providerOf s = "ollama".data) := fun hh => h2 (by simp [hh])
    simp only [get_model]
    rw [if_pos h1, if_neg hne1, if_neg hne2, if_neg hne3]
  refine ⟨fun m => rfl, ?_, herr, ?_⟩
  · intro s h
    simp only [get_model]
    rw [if_neg h]
  · intro model_id
    have hdata : ("watsonx:" ++ model_id).data = "watsonx".data ++ ':' :: model_id.data := by
      have h8 : ("watsonx:").data = "watsonx".data ++ [':'] := by decide
      rw [String.data_append, h8, List.append_assoc, List.singleton_append]
    have hmem : ':' ∈ ("watsonx:" ++ model_id).data := by
      rw [hdata]
      exact List.mem_append_right _ (List.mem_cons_self _ _)
    have hprov : providerOf ("watsonx:" ++ model_id) = "watsonx".data := by
      unfold providerOf
      rw [hdata, takeWhileNeColon_aux _ _ (by decide)]
      decide
    have hmain := herr ("watsonx:" ++ model_id) hmem (by rw [hprov]; decide)
    rw [hmain, hprov]
    exact congrArg Except.error (by decide)

theorem get_model_spec_witness :
    get_model (ModelSpec.str "watsonx") =
      Except.error ("Invalid model specification: watsonx" ++
        ". Expected format: provider:model_id") ∧
    get_model (ModelSpec.str "granite:granite-3-8b-instruct") =
      Except.error ("Unsupported provider: " ++
        String.mk (providerOf "granite:granite-3-8b-instruct") ++
        ". Supported providers: openai, anthropic, watsonx, ollama") :=
  ⟨get_model_spec.2.1 "watsonx" (by decide),
   get_model_spec.2.2.1 "granite:granite-3-8b-instruct" (by decide) (by decide)⟩

/-- C10 (amended): `with_config_overrides` returns `c` itself when no config
manager is set; otherwise it returns a new config whose `mcp_url`,
`transport`, `debug_filtering` and `config_manager` equal `c`'s, whose
`debug_mode` and `enable_reasoning` take the config-file value whenever one
is present, and whose `model` takes the config-file value when one is
present **and non-empty** — a present empty-string model is falsy under the
Python `or` used by the code, so `c`'s model is kept. -/
theorem with_config_overrides_spec :
    (∀ (c : AgentRunConfig) (agent_id : String),
      c.config_manager = none → c.with_config_overrides agent_id = c) ∧
    (∀ (c : AgentRunConfig) (agent_id : String) (gac : String → AgentFileConfig),
      c.config_manager = some gac →
      ((c.with_config_overrides agent_id).mcp_url = c.mcp_url ∧
       (c.with_config_overrides agent_id).transport = c.transport ∧
       (c.with_config_overrides agent_id).debug_filtering = c.debug_filtering ∧
       (c.with_config_overrides agent_id).config_manager = c.config_manager) ∧
      (∀ s, (gac agent_id).model = some s → s ≠ "" →
        (c.with_config_overrides agent_id).model = ModelSpec.str s) ∧
      ((gac agent_id).model = none →
        (c.with_config_overrides agent_id).model = c.model) ∧
      ((gac agent_id).model = some "" →
        (c.with_config_overrides agent_id).model = c.model) ∧
      (∀ bv, (gac agent_id).debug_mode = some bv →
        (c.with_config_overrides agent_id).debug_mode = bv) ∧
      ((gac agent_id).debug_mode = none →
        (c.with_config_overrides agent_id).debug_mode = c.debug_mode) ∧
      (∀ bv, (gac agent_id).enable_reasoning = some bv →
        (c.with_config_overrides agent_id).enable_reasoning = bv) ∧
      ((gac agent_id).enable_reasoning = none →
        (c.with_config_overrides agent_id).enable_reasoning = c.enable_reasoning)) := by
  constructor
  · intro c agent_id hn
    simp [AgentRunConfig.with_config_overrides, hn]
  · intro c agent_id gac hs
    refine ⟨?_, ?_, ?_, ?_, ?_, ?_, ?_, ?_⟩
    · simp [AgentRunConfig.with_config_overrides, hs]
    · intro s hm hne
      simp [AgentRunConfig.with_config_overrides, hs, hm, hne]
    · intro hm
      simp [AgentRunConfig.with_config_overrides, hs, hm]
    · intro hm
      simp [AgentRunConfig.with_config_overrides, hs, hm]
    · intro bv hm
      simp [AgentRunConfig.with_config_overrides, hs, hm]
    · intro hm
      simp [AgentRunConfig.with_config_overrides, hs, hm]
    · intro bv hm
      simp [AgentRunConfig.with_config_overrides, hs, hm]
    · intro hm
      simp [AgentRunConfig.with_config_overrides, hs, hm]

theorem with_config_overrides_spec_witness :
    (AgentRunConfig.mk (ModelSpec.str "openai:gpt-4o") false true none none false
        none).with_config_overrides "ibmi-sysadmin" =
      AgentRunConfig.mk (ModelSpec.str "openai:gpt-4o") false true none none false none :=
  with_config_overrides_spec.1 _ "ibmi-sysadmin" rfl

/-- C10 counterexample to the claim as stated: a config file entry whose
`model` is present but the empty string.  The claim says the model field
"takes the config-file value when one is present", but the code's
`agent_config.model or self.model` treats the present empty string as falsy
and keeps the runtime model instead. -/
theorem with_config_overrides_empty_model_counterexample :
    ((AgentRunConfig.mk (ModelSpec.str "openai:gpt-4o") false true none none false
        (some fun _ => AgentFileConfig.mk (some "") none none)).with_config_overrides
      "ibmi-performance-monitor").model = ModelSpec.str "openai:gpt-4o" ∧
    ((fun _ => AgentFileConfig.mk (some "") none none : String → AgentFileConfig)
        "ibmi-performance-monitor").model = some "" ∧
    ModelSpec.str "openai:gpt-4o" ≠ ModelSpec.str "" :=
  ⟨rfl, rfl, by decide⟩

end IbmiMcp
